import Mathlib

/-!
Shallow embedding of the agent-orchestration pipeline of the
Market-Intelligence-Agent repository, and proofs about its behaviour.

Conventions used throughout this development:

* Timestamps (readings of `datetime.now()` and of the event-loop clock) are
  modelled as integers; a duration (`total_seconds` of a timestamp
  difference) is the integer difference of two timestamps.
* Every external effect (LLM completion, news/search API call, file write,
  database write) is modelled by an explicit outcome parameter: the embedded
  function receives the outcome the external call would have produced
  (a normal value, a raised exception, or a cancellation signal) and the
  embedding reproduces exactly the control flow the Python code performs on
  that outcome.
* Python dictionaries with a fixed key set are modelled as structures; a
  missing optional value is `Option.none`.
* Logging calls are not modelled (they produce no value the code reads).
-/

/-- Timestamps are integers; durations are timestamp differences. -/
abbrev Time := Int

/-- The `AgentStatus` enum of `core/agents/base_agent.py`. -/
inductive AgentStatus where
  | idle
  | running
  | completed
  | failed
  | cancelled
  deriving DecidableEq, Repr

/-- The string `value` of each `AgentStatus` enum member. -/
def AgentStatus.value : AgentStatus → String
  | .idle => "idle"
  | .running => "running"
  | .completed => "completed"
  | .failed => "failed"
  | .cancelled => "cancelled"

/-- The mutable fields of a `BaseAgent` instance
(`core/agents/base_agent.py`, `__init__`).  The `results` attribute is
written by `run` but never read by `get_status` or by the orchestrator, so
it is not carried in the embedded state. -/
structure AgentState where
  name : String
  description : String
  status : AgentStatus
  start_time : Option Time
  end_time : Option Time
  error_message : Option String
  progress : Nat
  current_task : String
  deriving DecidableEq, Repr

/-- `BaseAgent.__init__(name, description)`. -/
def mkAgent (name description : String) : AgentState :=
  { name := name, description := description, status := .idle,
    start_time := none, end_time := none, error_message := none,
    progress := 0, current_task := "" }

/-- The fields of the dictionary an agent `run` hands to the orchestrator
that the orchestrator actually reads (`success` and `error`) together with
the `agent` key carried by the failure dictionary `run` builds itself.
Stage-specific payload keys (content lists, trends, ...) are modelled
separately, per stage, where a claim needs them. -/
structure StageResult where
  success : Bool
  error : Option String
  agent : Option String
  deriving DecidableEq, Repr

/-- Outcome of one call of a stage's `execute(input_data)`: a normal return,
a raised (non-cancellation) exception with its message, or a raised
`asyncio.CancelledError`. -/
inductive ExecOutcome where
  | ok (r : StageResult)
  | raised (msg : String)
  | cancelledError
  deriving DecidableEq, Repr

/-- What a call of `BaseAgent.run` does from its caller's point of view:
either it returns a dictionary, or it re-raises `asyncio.CancelledError`. -/
inductive RunCall where
  | returns (r : StageResult)
  | raisesCancelled
  deriving DecidableEq, Repr

/-- The field updates `BaseAgent.run` performs before invoking `execute`
(`self.status = RUNNING; self.start_time = now; self.progress = 0;
self.error_message = None`).  Note that `end_time` is NOT reset here — this
mirrors the source exactly. -/
def agentRunStart (s : AgentState) (tStart : Time) : AgentState :=
  { s with status := .running, start_time := some tStart, progress := 0,
           error_message := none }

/-- `BaseAgent.run(input_data)` of `core/agents/base_agent.py`, as a function
of the agent state, the outcome of `execute`, and the two `datetime.now()`
readings taken at entry and at termination. -/
def agentRun (s : AgentState) (out : ExecOutcome) (tStart tEnd : Time) :
    AgentState × RunCall :=
  let s1 := agentRunStart s tStart
  match out with
  | .ok r =>
      ({ s1 with status := .completed, progress := 100, end_time := some tEnd },
       .returns r)
  | .cancelledError =>
      ({ s1 with status := .cancelled, end_time := some tEnd },
       .raisesCancelled)
  | .raised msg =>
      ({ s1 with status := .failed, error_message := some msg,
                 end_time := some tEnd },
       .returns { success := false, error := some msg, agent := some s.name })

/-- The dictionary returned by `BaseAgent.get_status`. -/
structure StatusSnapshot where
  name : String
  description : String
  status : String
  progress : Nat
  current_task : String
  start_time : Option Time
  end_time : Option Time
  duration : Option Time
  error_message : Option String
  deriving DecidableEq, Repr

/-- `BaseAgent.get_status()`, as a pure function of the agent state and of
the `datetime.now()` reading taken during the call (used only when
`start_time` is set and `end_time` is not). -/
def getStatus (s : AgentState) (now : Time) : StatusSnapshot :=
  { name := s.name, description := s.description, status := s.status.value,
    progress := s.progress, current_task := s.current_task,
    start_time := s.start_time, end_time := s.end_time,
    duration := s.start_time.map (fun st => (s.end_time.getD now) - st),
    error_message := s.error_message }

/-- `BaseAgent.update_progress(progress, task)`: clamps to `[0, 100]` and
overwrites the task label only when a non-empty one is given. -/
def updateProgress (s : AgentState) (p : Int) (task : String) : AgentState :=
  { s with progress := (min 100 (max 0 p)).toNat,
           current_task := if task ≠ "" then task else s.current_task }

/-- C2: `BaseAgent.run` exhibits the asymmetric failure contract.  If
`execute` raises a non-cancellation exception, `run` sets status `failed`,
records the error message, and returns (does not raise) the dictionary
`{"success": False, "error": msg, "agent": name}`.  If `execute` raises
`asyncio.CancelledError`, `run` sets status `cancelled` and re-raises.  If
`execute` returns normally, `run` sets status `completed`, progress `100`,
and returns the result of `execute` unchanged. -/
theorem baseAgent_run_asymmetric_contract (s : AgentState) (tS tE : Time) :
    (∀ msg, (agentRun s (.raised msg) tS tE).1.status = .failed ∧
      (agentRun s (.raised msg) tS tE).1.error_message = some msg ∧
      (agentRun s (.raised msg) tS tE).2 =
        .returns { success := false, error := some msg, agent := some s.name }) ∧
    ((agentRun s .cancelledError tS tE).1.status = .cancelled ∧
      (agentRun s .cancelledError tS tE).2 = .raisesCancelled) ∧
    (∀ r, (agentRun s (.ok r) tS tE).1.status = .completed ∧
      (agentRun s (.ok r) tS tE).1.progress = 100 ∧
      (agentRun s (.ok r) tS tE).2 = .returns r) :=
  ⟨fun _ => ⟨rfl, rfl, rfl⟩, ⟨rfl, rfl⟩, fun _ => ⟨rfl, rfl, rfl⟩⟩

/-- An agent whose first invocation completed at time 10 (having started at
time 0). -/
def c8AgentAfterFirstRun : AgentState :=
  (agentRun (mkAgent "Reader Agent"
      "Collects data from web sources, news APIs, and documents")
    (.ok { success := true, error := none, agent := none }) 0 10).1

/-- The same agent after a second invocation of `run` has started at time 20
(the field updates `run` performs before awaiting `execute`). -/
def c8AgentSecondRunning : AgentState := agentRunStart c8AgentAfterFirstRun 20

/-- C8: evaluation of the code at the failing input.  After a completed
first invocation (start 0, end 10), a second invocation starting at time 20
leaves the stale `end_time = 10` in place (`run` resets status, progress,
`start_time` and `error_message` but not `end_time`), so a `get_status`
snapshot taken at time 25, while the second invocation is running, reports
`duration = 10 - 20 = -10`: the duration IS computed from the previous
invocation's end timestamp, not from the current clock (which would give
`25 - 20 = 5`). -/
theorem baseAgent_second_run_stale_end_time :
    c8AgentSecondRunning.status = .running ∧
    c8AgentSecondRunning.start_time = some 20 ∧
    c8AgentSecondRunning.end_time = some 10 ∧
    (getStatus c8AgentSecondRunning 25).duration = some (-10) :=
  ⟨rfl, rfl, rfl, rfl⟩

/-- The ASCII members of Python's regex class `\s` (the inputs this
development evaluates on are ASCII). -/
def pyWhitespace (c : Char) : Bool :=
  c = ' ' || c = '\t' || c = '\n' || c = '\r' || c = '\x0b' || c = '\x0c'

/-- A character accepted by the `market_domain` regex
`^[a-zA-Z0-9\s\-]+$` of `core/state.py`. -/
def validDomainChar (c : Char) : Bool :=
  c.isAlpha || c.isDigit || pyWhitespace c || c = '-'

/-- Python's `str.strip()` (with the ASCII whitespace set). -/
def pyStrip (s : String) : String :=
  String.mk (((s.toList.dropWhile (pyWhitespace ·)).reverse.dropWhile
    (pyWhitespace ·)).reverse)

/-- The `validate_market_domain` field validator of
`core/state.py`: the regex `^[a-zA-Z0-9\s\-]+$` must match the whole value
(`$` may also match before a trailing newline, but a newline is itself in
`\s`, so whole-string matching is equivalent to "non-empty and every
character in the class"); on success the stripped value is stored. -/
def validateMarketDomain (v : String) : Except String String :=
  if v ≠ "" ∧ v.toList.all validDomainChar then .ok (pyStrip v)
  else .error "Market domain must contain only letters, numbers, spaces, or hyphens"

/-- The `validate_query` field validator of `core/state.py`: a truthy
(non-empty) query whose stripped form has fewer than 5 characters is
rejected; otherwise a truthy query is stored stripped and a falsy one
unchanged. -/
def validateQuery (v : Option String) : Except String (Option String) :=
  match v with
  | none => .ok none
  | some q =>
      if q ≠ "" ∧ (pyStrip q).length < 5 then
        .error "Query must be at least 5 characters long"
      else .ok (some (if q ≠ "" then pyStrip q else q))

/-- The fields of `MarketIntelligenceState` (`core/state.py`) that the
orchestrator's history save populates with run-dependent values and that
the field validators inspect.  The record-list fields
(`market_trends`, `opportunities`, `strategic_recommendations`) are carried
through unvalidated and unread by the embedded code, so they are elided. -/
structure MarketIntelligenceState where
  state_id : String
  query : Option String
  market_domain : String
  question : Option String
  report_dir : Option String
  deriving DecidableEq, Repr

/-- Construction of a `MarketIntelligenceState`, running the two pydantic
field validators; any validator failure raises a validation error
(modelled as `Except.error`). -/
def mkMarketIntelligenceState (state_id : String) (query : Option String)
    (market_domain : String) (question : Option String)
    (report_dir : Option String) : Except String MarketIntelligenceState :=
  match validateMarketDomain market_domain with
  | .error e => .error e
  | .ok md =>
      match validateQuery query with
      | .error e => .error e
      | .ok q =>
          .ok { state_id := state_id, query := q, market_domain := md,
                question := question, report_dir := report_dir }

/-- The mutable fields of an `AgentOrchestrator` instance
(`core/workflow/agent_orchestrator.py`, `__init__`).  The `results`
attribute is written on the success path but never read by any embedded
observer, so it is elided. -/
structure OrchState where
  reader : AgentState
  analyst : AgentState
  strategist : AgentState
  formatter : AgentState
  workflow_status : String
  current_step : String
  progress : Nat
  start_time : Option Time
  end_time : Option Time
  deriving DecidableEq, Repr

/-- `AgentOrchestrator.__init__`: the four stage agents in their
constructed (idle) states, workflow status `idle`. -/
def mkOrchestrator : OrchState :=
  { reader := mkAgent "Reader Agent"
      "Collects data from web sources, news APIs, and documents",
    analyst := mkAgent "Analyst Agent"
      "Analyzes collected data to extract trends, opportunities, and metrics",
    strategist := mkAgent "Strategist Agent"
      "Generates strategic recommendations and actionable insights",
    formatter := mkAgent "Formatter Agent"
      "Formats charts, reports, and handles export functionality",
    workflow_status := "idle", current_step := "", progress := 0,
    start_time := none, end_time := none }

/-- The fields of the final results dictionary assembled on the success
path of `run_intelligence_workflow` that later code (the history save)
reads.  The stage payload keys (content lists, trends, report text, ...)
are merged with `.get(key, default)` reads of the stage dictionaries and
are not read by any control-flow decision; `report_dir` is the value the
history save reads with default `""` and, the formatter payload being
elided here, is the default. -/
structure FinalResults where
  success : Bool
  workflow_id : String
  state_id : String
  query : String
  market_domain : String
  question : Option String
  start_time : Time
  end_time : Time
  duration : Time
  report_dir : String
  deriving DecidableEq, Repr

/-- The structured failure dictionary returned by the `except` block of
`run_intelligence_workflow`. -/
structure FailureDict where
  success : Bool
  error : String
  workflow_id : String
  state_id : String
  query : String
  market_domain : String
  question : Option String
  failed_step : String
  progress : Nat
  deriving DecidableEq, Repr

/-- What `run_intelligence_workflow` does from its caller's point of view:
returns the success dictionary, returns the failure dictionary, or lets a
raised `asyncio.CancelledError` propagate (it is a `BaseException`, which
`except Exception` does not catch). -/
inductive WorkflowOutcome where
  | completedRun (r : FinalResults)
  | failedRun (r : FailureDict)
  | raisesCancelledError
  deriving DecidableEq, Repr

/-- Result of one embedded orchestrator run: the final orchestrator state,
the history store contents after the run, the list of stage agents whose
`run` was invoked (in invocation order), and the returned/raised outcome. -/
structure WorkflowRunOut where
  state : OrchState
  history : List MarketIntelligenceState
  invoked : List String
  outcome : WorkflowOutcome
  deriving DecidableEq, Repr

/-- The `datetime.now()` readings a full workflow run can take, in program
order: workflow start, each agent run's start/end pair, the success-path
end, and the `except`-path end. -/
structure WorkflowTimes where
  t0 : Time
  readerStart : Time
  readerEnd : Time
  analystStart : Time
  analystEnd : Time
  strategistStart : Time
  strategistEnd : Time
  formatterStart : Time
  formatterEnd : Time
  tEnd : Time
  tCatch : Time
  deriving DecidableEq, Repr

/-- Rendering of a Python value in an f-string where `None` prints as
`"None"` (used for `f"... failed: {result.get('error')}"`). -/
def pyOptStr : Option String → String
  | some s => s
  | none => "None"

/-- `AgentOrchestrator._save_analysis_to_history(results)`: builds a
`MarketIntelligenceState` from the final results (a raised validation
error is caught by the method's `except` and only logged), then writes it
through `DatabaseManager.save_state`; the write is modelled by appending to
the history list when the database reports success (`dbSaveOk`). -/
def saveAnalysisToHistory (results : FinalResults) (dbSaveOk : Bool)
    (history : List MarketIntelligenceState) : List MarketIntelligenceState :=
  match mkMarketIntelligenceState results.state_id (some results.query)
      results.market_domain results.question (some results.report_dir) with
  | .error _ => history
  | .ok st => if dbSaveOk then history ++ [st] else history

/-- The `except Exception` block of `run_intelligence_workflow`: sets the
workflow status to `failed`, stamps the end time, and returns the
structured failure dictionary naming the current step. -/
def workflowFail (st : OrchState) (wfId query market_domain : String)
    (question : Option String) (history : List MarketIntelligenceState)
    (invoked : List String) (errMsg : String) (tCatch : Time) :
    WorkflowRunOut :=
  { state := { st with workflow_status := "failed", end_time := some tCatch },
    history := history, invoked := invoked,
    outcome := .failedRun
      { success := false, error := errMsg, workflow_id := wfId,
        state_id := wfId, query := query, market_domain := market_domain,
        question := question, failed_step := st.current_step,
        progress := st.progress } }

/-- `AgentOrchestrator.run_intelligence_workflow(query, market_domain,
question)`, as a function of the orchestrator state, the outcome each
stage's `execute` would produce, the database save outcome, the clock
readings, and the current history store contents. -/
def runIntelligenceWorkflow (st : OrchState) (query market_domain : String)
    (question : Option String)
    (outReader outAnalyst outStrategist outFormatter : ExecOutcome)
    (dbSaveOk : Bool) (times : WorkflowTimes)
    (history : List MarketIntelligenceState) : WorkflowRunOut :=
  let st := { st with
    workflow_status := "running", start_time := some times.t0, progress := 0 }
  let wfId := "workflow_" ++ toString times.t0
  let st := { st with current_step := "Data Collection", progress := 10 }
  let rRun := agentRun st.reader outReader times.readerStart times.readerEnd
  let st := { st with reader := rRun.1 }
  match rRun.2 with
  | .raisesCancelled =>
      { state := st, history := history, invoked := ["reader"],
        outcome := .raisesCancelledError }
  | .returns r =>
      if !r.success then
        workflowFail st wfId query market_domain question history ["reader"]
          ("Reader Agent failed: " ++ pyOptStr r.error) times.tCatch
      else
        let st := { st with
          current_step := "Data Analysis", progress := 35 }
        let aRun := agentRun st.analyst outAnalyst times.analystStart
          times.analystEnd
        let st := { st with analyst := aRun.1 }
        match aRun.2 with
        | .raisesCancelled =>
            { state := st, history := history,
              invoked := ["reader", "analyst"],
              outcome := .raisesCancelledError }
        | .returns a =>
            if !a.success then
              workflowFail st wfId query market_domain question history
                ["reader", "analyst"]
                ("Analyst Agent failed: " ++ pyOptStr a.error) times.tCatch
            else
              let st := { st with
                current_step := "Strategic Planning", progress := 65 }
              let sRun := agentRun st.strategist outStrategist
                times.strategistStart times.strategistEnd
              let st := { st with strategist := sRun.1 }
              match sRun.2 with
              | .raisesCancelled =>
                  { state := st, history := history,
                    invoked := ["reader", "analyst", "strategist"],
                    outcome := .raisesCancelledError }
              | .returns s =>
                  if !s.success then
                    workflowFail st wfId query market_domain question history
                      ["reader", "analyst", "strategist"]
                      ("Strategist Agent failed: " ++ pyOptStr s.error)
                      times.tCatch
                  else
                    let st := { st with
                      current_step := "Report Generation", progress := 85 }
                    let fRun := agentRun st.formatter outFormatter
                      times.formatterStart times.formatterEnd
                    let st := { st with formatter := fRun.1 }
                    match fRun.2 with
                    | .raisesCancelled =>
                        { state := st, history := history,
                          invoked := ["reader", "analyst", "strategist",
                            "formatter"],
                          outcome := .raisesCancelledError }
                    | .returns f =>
                        if !f.success then
                          workflowFail st wfId query market_domain question
                            history
                            ["reader", "analyst", "strategist", "formatter"]
                            ("Formatter Agent failed: " ++ pyOptStr f.error)
                            times.tCatch
                        else
                          let st := { st with
                            progress := 100,
                            current_step := "Completed",
                            workflow_status := "completed",
                            end_time := some times.tEnd }
                          let final : FinalResults :=
                            { success := true, workflow_id := wfId,
                              state_id := wfId, query := query,
                              market_domain := market_domain,
                              question := question,
                              start_time := times.t0,
                              end_time := times.tEnd,
                              duration := times.tEnd - times.t0,
                              report_dir := "" }
                          { state := st,
                            history := saveAnalysisToHistory final dbSaveOk
                              history,
                            invoked := ["reader", "analyst", "strategist",
                              "formatter"],
                            outcome := .completedRun final }

/-- The dictionary returned by `AgentOrchestrator.get_workflow_status`. -/
structure WorkflowStatusSnapshot where
  workflow_status : String
  current_step : String
  progress : Nat
  start_time : Option Time
  end_time : Option Time
  duration : Option Time
  agent_statuses : List (String × StatusSnapshot)
  deriving DecidableEq, Repr

/-- `AgentOrchestrator.get_workflow_status()`, as a pure function of the
orchestrator state and of the `datetime.now()` reading (the source performs
no writes in this method). -/
def getWorkflowStatus (st : OrchState) (now : Time) : WorkflowStatusSnapshot :=
  { workflow_status := st.workflow_status, current_step := st.current_step,
    progress := st.progress, start_time := st.start_time,
    end_time := st.end_time,
    duration := st.start_time.map (fun s => (st.end_time.getD now) - s),
    agent_statuses :=
      [("reader", getStatus st.reader now),
       ("analyst", getStatus st.analyst now),
       ("strategist", getStatus st.strategist now),
       ("formatter", getStatus st.formatter now)] }

/-- The `success` field of the dictionary a call of `BaseAgent.run` returns
for a given `execute` outcome (`none` when `run` re-raises a cancellation
instead of returning). -/
def runReturnsSuccess : ExecOutcome → Option Bool
  | .ok r => some r.success
  | .raised _ => some false
  | .cancelledError => none

/-- A workflow run that aborted at the named step: exactly the given stages
were invoked (no later one), the workflow status is `failed`, the history
store is unchanged, and the run returned (did not raise) a failure
dictionary whose `failed_step` field is the failing step's label. -/
def FailedRun (w : WorkflowRunOut) (invoked : List String) (step : String)
    (history : List MarketIntelligenceState) : Prop :=
  w.invoked = invoked ∧ w.state.workflow_status = "failed" ∧
  w.history = history ∧
  ∃ fd, w.outcome = .failedRun fd ∧ fd.success = false ∧ fd.failed_step = step

/-- C1: for every pipeline run, if a stage agent's `run` returns a result
with a falsy `success` field (including the case where the stage's
`execute` raised and `BaseAgent.run` converted the exception), the
orchestrator never invokes any later stage, sets the workflow status to
`failed`, returns (does not raise) a structured failure dictionary whose
`failed_step` names the step that failed, and writes nothing to the history
store.  One conjunct per stage, guarded by the earlier stages having
returned truthy `success`. -/
theorem orchestrator_aborts_on_stage_failure (st : OrchState)
    (q md : String) (qu : Option String) (oR oA oS oF : ExecOutcome)
    (db : Bool) (ts : WorkflowTimes) (h : List MarketIntelligenceState) :
    (runReturnsSuccess oR = some false →
      FailedRun (runIntelligenceWorkflow st q md qu oR oA oS oF db ts h)
        ["reader"] "Data Collection" h) ∧
    (runReturnsSuccess oR = some true → runReturnsSuccess oA = some false →
      FailedRun (runIntelligenceWorkflow st q md qu oR oA oS oF db ts h)
        ["reader", "analyst"] "Data Analysis" h) ∧
    (runReturnsSuccess oR = some true → runReturnsSuccess oA = some true →
      runReturnsSuccess oS = some false →
      FailedRun (runIntelligenceWorkflow st q md qu oR oA oS oF db ts h)
        ["reader", "analyst", "strategist"] "Strategic Planning" h) ∧
    (runReturnsSuccess oR = some true → runReturnsSuccess oA = some true →
      runReturnsSuccess oS = some true → runReturnsSuccess oF = some false →
      FailedRun (runIntelligenceWorkflow st q md qu oR oA oS oF db ts h)
        ["reader", "analyst", "strategist", "formatter"]
        "Report Generation" h) := by
  refine ⟨?_, ?_, ?_, ?_⟩
  · intro h1
    cases oR with
    | cancelledError => simp [runReturnsSuccess] at h1
    | raised m =>
        simp [runIntelligenceWorkflow, agentRun, workflowFail, FailedRun]
    | ok r =>
        simp only [runReturnsSuccess, Option.some.injEq] at h1
        simp [runIntelligenceWorkflow, agentRun, workflowFail, FailedRun, h1]
  · intro h1 h2
    cases oR with
    | cancelledError => simp [runReturnsSuccess] at h1
    | raised m => simp [runReturnsSuccess] at h1
    | ok r =>
        simp only [runReturnsSuccess, Option.some.injEq] at h1
        cases oA with
        | cancelledError => simp [runReturnsSuccess] at h2
        | raised m =>
            simp [runIntelligenceWorkflow, agentRun, workflowFail, FailedRun,
              h1]
        | ok a =>
            simp only [runReturnsSuccess, Option.some.injEq] at h2
            simp [runIntelligenceWorkflow, agentRun, workflowFail, FailedRun,
              h1, h2]
  · intro h1 h2 h3
    cases oR with
    | cancelledError => simp [runReturnsSuccess] at h1
    | raised m => simp [runReturnsSuccess] at h1
    | ok r =>
        simp only [runReturnsSuccess, Option.some.injEq] at h1
        cases oA with
        | cancelledError => simp [runReturnsSuccess] at h2
        | raised m => simp [runReturnsSuccess] at h2
        | ok a =>
            simp only [runReturnsSuccess, Option.some.injEq] at h2
            cases oS with
            | cancelledError => simp [runReturnsSuccess] at h3
            | raised m =>
                simp [runIntelligenceWorkflow, agentRun, workflowFail,
                  FailedRun, h1, h2]
            | ok s =>
                simp only [runReturnsSuccess, Option.some.injEq] at h3
                simp [runIntelligenceWorkflow, agentRun, workflowFail,
                  FailedRun, h1, h2, h3]
  · intro h1 h2 h3 h4
    cases oR with
    | cancelledError => simp [runReturnsSuccess] at h1
    | raised m => simp [runReturnsSuccess] at h1
    | ok r =>
        simp only [runReturnsSuccess, Option.some.injEq] at h1
        cases oA with
        | cancelledError => simp [runReturnsSuccess] at h2
        | raised m => simp [runReturnsSuccess] at h2
        | ok a =>
            simp only [runReturnsSuccess, Option.some.injEq] at h2
            cases oS with
            | cancelledError => simp [runReturnsSuccess] at h3
            | raised m => simp [runReturnsSuccess] at h3
            | ok s =>
                simp only [runReturnsSuccess, Option.some.injEq] at h3
                cases oF with
                | cancelledError => simp [runReturnsSuccess] at h4
                | raised m =>
                    simp [runIntelligenceWorkflow, agentRun, workflowFail,
                      FailedRun, h1, h2, h3]
                | ok f =>
                    simp only [runReturnsSuccess, Option.some.injEq] at h4
                    simp [runIntelligenceWorkflow, agentRun, workflowFail,
                      FailedRun, h1, h2, h3, h4]

/-- C1 witness: a concrete run whose reader `execute` raises an uncaught
exception aborts at the reader stage with `failed_step` `"Data Collection"`,
invokes no later stage, and writes no history entry. -/
theorem orchestrator_aborts_on_stage_failure_witness :
    FailedRun (runIntelligenceWorkflow mkOrchestrator "AI adoption"
        "Healthcare" none (.raised "boom")
        (.ok { success := true, error := none, agent := none })
        (.ok { success := true, error := none, agent := none })
        (.ok { success := true, error := none, agent := none })
        true ⟨0, 1, 2, 3, 4, 5, 6, 7, 8, 9, 10⟩ [])
      ["reader"] "Data Collection" [] :=
  (orchestrator_aborts_on_stage_failure mkOrchestrator "AI adoption"
    "Healthcare" none (.raised "boom")
    (.ok { success := true, error := none, agent := none })
    (.ok { success := true, error := none, agent := none })
    (.ok { success := true, error := none, agent := none })
    true ⟨0, 1, 2, 3, 4, 5, 6, 7, 8, 9, 10⟩ []).1 rfl

/-- An orchestrator state as it stands while the reader stage is running:
the workflow start timer is open (`start_time` set, `end_time` unset). -/
def c7MidRunState : OrchState :=
  { mkOrchestrator with
    workflow_status := "running", current_step := "Data Collection",
    progress := 10, start_time := some 0, end_time := none }

/-- C7 counterexample: two calls of `get_workflow_status`, with no `run`
invocation between them, on the same (unchanged) mid-run orchestrator
state, return different outputs — the `duration` field is computed from
`datetime.now()` while the end timestamp is unset, so it tracks the clock
(here `5 - 0` versus `7 - 0`). -/
theorem getWorkflowStatus_outputs_differ_mid_run :
    getWorkflowStatus c7MidRunState 5 ≠ getWorkflowStatus c7MidRunState 7 := by
  intro hEq
  have hdur := congrArg WorkflowStatusSnapshot.duration hEq
  simp [getWorkflowStatus, c7MidRunState, mkOrchestrator] at hdur

/-- An agent state whose `get_status` output cannot depend on the clock:
either no invocation has started (`start_time` unset) or the last one has
ended (`end_time` set). -/
def agentClockFree (a : AgentState) : Prop :=
  a.start_time = none ∨ a.end_time ≠ none

/-- An orchestrator state with no open timer: the workflow-level timer and
each stage agent's timer is either never started or already closed. -/
def orchClockFree (st : OrchState) : Prop :=
  (st.start_time = none ∨ st.end_time ≠ none) ∧
  agentClockFree st.reader ∧ agentClockFree st.analyst ∧
  agentClockFree st.strategist ∧ agentClockFree st.formatter

/-- Helper: `get_status` output does not depend on the clock reading when
the agent's timer is not open. -/
theorem getStatus_clock_free (a : AgentState) (h : agentClockFree a)
    (n1 n2 : Time) : getStatus a n1 = getStatus a n2 := by
  rcases h with h | h
  · simp [getStatus, h]
  · obtain ⟨e, he⟩ := Option.ne_none_iff_exists'.mp h
    simp [getStatus, he]

/-- C7 amended: `get_workflow_status` is embedded as a pure function of the
orchestrator state (the source method performs no writes, so repeated calls
never mutate the orchestrator's or any agent's state), and two calls return
identical output whenever no timer is open — before any run has started, or
after the workflow and every invoked agent has its end timestamp set (a
completed, failed or cancelled run).  While a run is in progress the
`duration` fields are computed from `datetime.now()`, so outputs of calls
taken at different instants differ (see the counterexample). -/
theorem getWorkflowStatus_idempotent_when_quiescent (st : OrchState)
    (h : orchClockFree st) (n1 n2 : Time) :
    getWorkflowStatus st n1 = getWorkflowStatus st n2 := by
  obtain ⟨h0, h1, h2, h3, h4⟩ := h
  have e1 := getStatus_clock_free st.reader h1 n1 n2
  have e2 := getStatus_clock_free st.analyst h2 n1 n2
  have e3 := getStatus_clock_free st.strategist h3 n1 n2
  have e4 := getStatus_clock_free st.formatter h4 n1 n2
  rcases h0 with h0 | h0
  · simp [getWorkflowStatus, h0, e1, e2, e3, e4]
  · obtain ⟨e, he⟩ := Option.ne_none_iff_exists'.mp h0
    simp [getWorkflowStatus, he, e1, e2, e3, e4]

/-- C7 witness: on the freshly constructed (idle) orchestrator, status
polls at times 3 and 9 return identical output. -/
theorem getWorkflowStatus_idempotent_witness :
    getWorkflowStatus mkOrchestrator 3 = getWorkflowStatus mkOrchestrator 9 :=
  getWorkflowStatus_idempotent_when_quiescent mkOrchestrator
    ⟨Or.inl rfl, Or.inl rfl, Or.inl rfl, Or.inl rfl, Or.inl rfl⟩ 3 9

/-- Helper: when the final results carry a market domain with a character
outside the regex class of `validate_market_domain`, or a non-empty query
whose stripped form is shorter than 5 characters, constructing the
`MarketIntelligenceState` raises a validation error, the `except` block of
`_save_analysis_to_history` swallows it, and the history store is left
unchanged. -/
theorem saveAnalysisToHistory_invalid (fr : FinalResults) (db : Bool)
    (h : List MarketIntelligenceState)
    (hBad : (∃ c ∈ fr.market_domain.toList, validDomainChar c = false) ∨
      (fr.query ≠ "" ∧ (pyStrip fr.query).length < 5)) :
    saveAnalysisToHistory fr db h = h := by
  rcases hBad with ⟨c, hc, hcf⟩ | ⟨hne, hlen⟩
  · have hcond : ¬ (fr.market_domain ≠ "" ∧
        fr.market_domain.toList.all validDomainChar = true) := by
      rintro ⟨-, hall⟩
      have hct := List.all_eq_true.mp hall c hc
      simp [hcf] at hct
    have hmd : validateMarketDomain fr.market_domain = .error
        "Market domain must contain only letters, numbers, spaces, or hyphens" := by
      unfold validateMarketDomain
      exact if_neg hcond
    simp [saveAnalysisToHistory, mkMarketIntelligenceState, hmd]
  · cases hmd : validateMarketDomain fr.market_domain with
    | error e => simp [saveAnalysisToHistory, mkMarketIntelligenceState, hmd]
    | ok md2 =>
        have hq : validateQuery (some fr.query) =
            .error "Query must be at least 5 characters long" := by
          simp [validateQuery, hne, hlen]
        simp [saveAnalysisToHistory, mkMarketIntelligenceState, hmd, hq]

/-- C10: a run in which all four stages return truthy `success`, but whose
market domain contains a character outside the class letters, digits,
whitespace (Python `\s`, which includes the space character), hyphen — or
whose query is non-empty (truthy) but shorter than 5 characters after
stripping — completes normally: the history-record construction raises a
validation error that `_save_analysis_to_history` catches and only logs, so
no entry is written to the history store, while
`run_intelligence_workflow` still returns a `success=true` result and the
workflow status is `completed`. -/
theorem workflow_invalid_history_record_not_saved (st : OrchState)
    (q md : String) (qu : Option String) (oR oA oS oF : ExecOutcome)
    (db : Bool) (ts : WorkflowTimes) (h : List MarketIntelligenceState)
    (hR : runReturnsSuccess oR = some true)
    (hA : runReturnsSuccess oA = some true)
    (hS : runReturnsSuccess oS = some true)
    (hF : runReturnsSuccess oF = some true)
    (hBad : (∃ c ∈ md.toList, validDomainChar c = false) ∨
      (q ≠ "" ∧ (pyStrip q).length < 5)) :
    (runIntelligenceWorkflow st q md qu oR oA oS oF db ts h).history = h ∧
    (runIntelligenceWorkflow st q md qu oR oA oS oF
      db ts h).state.workflow_status = "completed" ∧
    ∃ fr, (runIntelligenceWorkflow st q md qu oR oA oS oF db ts h).outcome =
      .completedRun fr ∧ fr.success = true := by
  cases oR with
  | cancelledError => simp [runReturnsSuccess] at hR
  | raised m => simp [runReturnsSuccess] at hR
  | ok r =>
      obtain ⟨rs, re, ra⟩ := r
      simp only [runReturnsSuccess, Option.some.injEq] at hR
      subst hR
      cases oA with
      | cancelledError => simp [runReturnsSuccess] at hA
      | raised m => simp [runReturnsSuccess] at hA
      | ok a =>
          obtain ⟨as, ae, aa⟩ := a
          simp only [runReturnsSuccess, Option.some.injEq] at hA
          subst hA
          cases oS with
          | cancelledError => simp [runReturnsSuccess] at hS
          | raised m => simp [runReturnsSuccess] at hS
          | ok s =>
              obtain ⟨ss, se, sa⟩ := s
              simp only [runReturnsSuccess, Option.some.injEq] at hS
              subst hS
              cases oF with
              | cancelledError => simp [runReturnsSuccess] at hF
              | raised m => simp [runReturnsSuccess] at hF
              | ok f =>
                  obtain ⟨fs, fe, fa⟩ := f
                  simp only [runReturnsSuccess, Option.some.injEq] at hF
                  subst hF
                  exact ⟨saveAnalysisToHistory_invalid _ db h hBad, rfl,
                    _, rfl, rfl⟩

/-- C10 witness: a concrete run with a market domain containing `@`, all
four stages succeeding, and a database that would accept the write: the
history store stays empty and the run returns success. -/
theorem workflow_invalid_history_record_not_saved_witness :
    (runIntelligenceWorkflow mkOrchestrator "AI adoption in healthcare"
        "Health@Care" none
        (.ok { success := true, error := none, agent := none })
        (.ok { success := true, error := none, agent := none })
        (.ok { success := true, error := none, agent := none })
        (.ok { success := true, error := none, agent := none })
        true ⟨0, 1, 2, 3, 4, 5, 6, 7, 8, 9, 10⟩ []).history = [] ∧
    (runIntelligenceWorkflow mkOrchestrator "AI adoption in healthcare"
        "Health@Care" none
        (.ok { success := true, error := none, agent := none })
        (.ok { success := true, error := none, agent := none })
        (.ok { success := true, error := none, agent := none })
        (.ok { success := true, error := none, agent := none })
        true ⟨0, 1, 2, 3, 4, 5, 6, 7, 8, 9, 10⟩ []).state.workflow_status =
      "completed" ∧
    ∃ fr, (runIntelligenceWorkflow mkOrchestrator "AI adoption in healthcare"
        "Health@Care" none
        (.ok { success := true, error := none, agent := none })
        (.ok { success := true, error := none, agent := none })
        (.ok { success := true, error := none, agent := none })
        (.ok { success := true, error := none, agent := none })
        true ⟨0, 1, 2, 3, 4, 5, 6, 7, 8, 9, 10⟩ []).outcome =
      .completedRun fr ∧ fr.success = true :=
  workflow_invalid_history_record_not_saved mkOrchestrator
    "AI adoption in healthcare" "Health@Care" none
    (.ok { success := true, error := none, agent := none })
    (.ok { success := true, error := none, agent := none })
    (.ok { success := true, error := none, agent := none })
    (.ok { success := true, error := none, agent := none })
    true ⟨0, 1, 2, 3, 4, 5, 6, 7, 8, 9, 10⟩ [] rfl rfl rfl rfl
    (Or.inl ⟨'@', by decide, by decide⟩)

/-- A collected content item as the analyst's sub-tasks read it: only the
`content` and `description` keys are consulted (missing keys read as `""`
via `.get(key, "")`). -/
structure ContentItem where
  content : String
  description : String
  deriving DecidableEq, Repr

/-- `item.get("content", "") or item.get("description", "")`: the
`description` is used when the `content` string is falsy (empty). -/
def effectiveContent (item : ContentItem) : String :=
  if item.content ≠ "" then item.content else item.description

/-- The content-gathering loop shared verbatim by
`AnalystAgent._analyze_market_trends` and
`AnalystAgent._identify_opportunities`: keep only truthy content whose
stripped length exceeds 50, truncated to its first 800 characters. -/
def substantialContents (web news : List ContentItem) : List String :=
  (web ++ news).filterMap (fun item =>
    let c := effectiveContent item
    if c ≠ "" ∧ (pyStrip c).length > 50 then some (c.take 800) else none)

/-- A trend record, with the fields of the prompt schema of
`_analyze_market_trends` plus the metadata keys the code adds
(`analysis_timestamp`, `data_sources`) and the fallback-flag `note` key
(present only on fallback records). -/
structure Trend where
  trend_name : String
  description : String
  impact_level : String
  timeframe : String
  confidence_score : ℚ
  supporting_evidence : List String
  market_size_impact : String
  key_drivers : List String
  analysis_timestamp : Time
  data_sources : Nat
  note : Option String
  deriving DecidableEq, Repr

/-- An opportunity record, with the fields of the prompt schema of
`_identify_opportunities` plus the fallback-flag `note` key. -/
structure Opportunity where
  opportunity_name : String
  description : String
  market_size : String
  target_segment : String
  competitive_advantage : String
  implementation_difficulty : String
  time_to_market : String
  revenue_potential : String
  risk_level : String
  key_requirements : List String
  note : Option String
  deriving DecidableEq, Repr

/-- The `note` string every fallback trend and fallback opportunity
carries. -/
def fallbackNote : String := "Fallback data - limited external sources available"

/-- `AnalystAgent._get_fallback_trends(query, market_domain)`; `ts` is the
event-loop clock reading the method stamps into `analysis_timestamp`. -/
def getFallbackTrends (query market_domain : String) (ts : Time) :
    List Trend :=
  [{ trend_name := "Digital Transformation in " ++ market_domain,
     description := "Continued digital adoption and AI integration in " ++
       market_domain ++ " sector",
     impact_level := "High", timeframe := "Medium-term",
     confidence_score := 6/10,
     supporting_evidence := ["Industry reports", "Market analysis"],
     market_size_impact := "Significant growth potential",
     key_drivers := ["Technology advancement", "Consumer demand"],
     analysis_timestamp := ts, data_sources := 0,
     note := some fallbackNote },
   { trend_name := "Sustainability Focus in " ++ market_domain,
     description := "Increasing emphasis on sustainable practices in " ++
       market_domain,
     impact_level := "Medium", timeframe := "Long-term",
     confidence_score := 5/10,
     supporting_evidence := ["Regulatory trends", "Consumer preferences"],
     market_size_impact := "Moderate growth impact",
     key_drivers := ["Regulatory pressure", "Environmental awareness"],
     analysis_timestamp := ts, data_sources := 0,
     note := some fallbackNote }]

/-- `AnalystAgent._get_fallback_opportunities(query, market_domain)`. -/
def getFallbackOpportunities (query market_domain : String) :
    List Opportunity :=
  [{ opportunity_name := "AI-Powered Solutions for " ++ market_domain,
     description := "Develop AI-driven products and services for " ++
       market_domain ++ " market needs",
     market_size := "Large and growing",
     target_segment := "Enterprise customers",
     competitive_advantage := "Advanced AI capabilities",
     implementation_difficulty := "Medium", time_to_market := "6-12 months",
     revenue_potential := "High", risk_level := "Medium",
     key_requirements := ["AI expertise", "Market validation"],
     note := some fallbackNote },
   { opportunity_name := "Digital Platform for " ++ market_domain,
     description := "Create digital marketplace or platform serving " ++
       market_domain ++ " sector",
     market_size := "Medium to large", target_segment := "SME and enterprise",
     competitive_advantage := "First-mover advantage",
     implementation_difficulty := "Hard", time_to_market := "12-18 months",
     revenue_potential := "Medium", risk_level := "High",
     key_requirements := ["Platform development", "User acquisition"],
     note := some fallbackNote }]

/-- `AnalystAgent._analyze_market_trends`.  The LLM call is modelled by its
outcome: `.error` when the chain raises (connection error or output the
JSON parser cannot parse), `.ok none` when it parses to a non-list value
(the `isinstance` check then replaces it by `[]`), `.ok (some ls)` when it
parses to a list of trend records.  When the filtered content list is
empty the LLM is never consulted and the fallback trends are returned; a
raised call also yields the fallback trends (via the method's `except`). -/
def analyzeMarketTrends (web news : List ContentItem)
    (query market_domain : String)
    (llm : Except Unit (Option (List Trend))) (ts : Time) : List Trend :=
  if substantialContents web news = [] then
    getFallbackTrends query market_domain ts
  else
    match llm with
    | .error _ => getFallbackTrends query market_domain ts
    | .ok none => []
    | .ok (some ls) =>
        ls.map (fun t =>
          { t with analysis_timestamp := ts,
                   data_sources := web.length + news.length })

/-- `AnalystAgent._identify_opportunities`, same outcome modelling as the
trend analysis (no metadata is added to parsed opportunity records). -/
def identifyOpportunities (web news : List ContentItem)
    (query market_domain : String)
    (llm : Except Unit (Option (List Opportunity))) : List Opportunity :=
  if substantialContents web news = [] then
    getFallbackOpportunities query market_domain
  else
    match llm with
    | .error _ => getFallbackOpportunities query market_domain
    | .ok none => []
    | .ok (some ls) => ls

/-- The object schema of `_analyze_competitive_landscape` (leader/player
sub-records flattened to their name strings are not needed by any claim;
the lists are carried with their full sub-record field sets). -/
structure MarketLeader where
  company_name : String
  market_share : String
  key_strengths : List String
  recent_developments : String
  deriving DecidableEq, Repr

/-- Emerging-player sub-record of the competitive-landscape schema. -/
structure EmergingPlayer where
  company_name : String
  focus_area : String
  competitive_edge : String
  deriving DecidableEq, Repr

/-- Competitive-landscape object. -/
structure CompetitiveLandscape where
  market_leaders : List MarketLeader
  emerging_players : List EmergingPlayer
  market_concentration : String
  barriers_to_entry : List String
  competitive_intensity : String
  deriving DecidableEq, Repr

/-- The value `_analyze_competitive_landscape` returns: a parsed landscape
object, or the empty dictionary `{}` substituted when the parsed value is
not a dict. -/
inductive CompetitiveResult where
  | parsed (c : CompetitiveLandscape)
  | emptyDict
  deriving DecidableEq, Repr

/-- The default landscape returned when the competitive-landscape LLM call
raises. -/
def defaultCompetitiveLandscape : CompetitiveLandscape :=
  { market_leaders := [], emerging_players := [],
    market_concentration := "Medium",
    barriers_to_entry := ["Capital requirements", "Regulatory compliance"],
    competitive_intensity := "Medium" }

/-- `AnalystAgent._analyze_competitive_landscape` (the keyword-filtered
content feeds only the prompt, so it does not appear in the outcome
model). -/
def analyzeCompetitiveLandscape (web news : List ContentItem)
    (query market_domain : String)
    (llm : Except Unit CompetitiveResult) : CompetitiveResult :=
  match llm with
  | .ok r => r
  | .error _ => .parsed defaultCompetitiveLandscape

/-- The dictionary the reader's `_process_collected_data` returns (used by
the analyst's metric extraction through `processed_data`). -/
structure ProcessedData where
  key_themes : List String
  market_signals : List String
  data_quality_score : Int
  content_summary : String
  recommended_focus_areas : List String
  deriving DecidableEq, Repr

/-- The metrics dictionary of `AnalystAgent._extract_key_metrics`. -/
structure KeyMetrics where
  data_sources_count : Nat
  web_sources : Nat
  news_sources : Nat
  data_quality_score : Int
  numerical_data_points : Nat
  content_freshness : String
  coverage_completeness : ℚ
  analysis_confidence : ℚ
  deriving DecidableEq, Repr

/-- `AnalystAgent._extract_key_metrics`: deterministic counting.  The count
of regex-matched numeric mentions in the content
(`\$?(\d+(?:\.\d+)?)\s*(?:billion|million|thousand|%|percent)`) is supplied
as the `numericalDataPoints` parameter; every other field is computed as in
the source (`coverage_completeness = min(100, total/20*100)`,
`analysis_confidence = quality/10`). -/
def extractKeyMetrics (web news : List ContentItem)
    (processed : ProcessedData) (numericalDataPoints : Nat) : KeyMetrics :=
  let total : Nat := web.length + news.length
  { data_sources_count := total, web_sources := web.length,
    news_sources := news.length,
    data_quality_score := processed.data_quality_score,
    numerical_data_points := numericalDataPoints,
    content_freshness := "Recent",
    coverage_completeness := min 100 ((total : ℚ) / 20 * 100),
    analysis_confidence := (processed.data_quality_score : ℚ) / 10 }

/-- The synthesis dictionary of `AnalystAgent._synthesize_analysis`. -/
structure AnalysisSynthesis where
  executive_summary : String
  full_synthesis : String
  analysis_timestamp : Time
  confidence_level : ℚ
  deriving DecidableEq, Repr

/-- `AnalystAgent._synthesize_analysis`: on a successful LLM call, the
first 500 characters of the response text become the executive summary; on
a raised call, a templated summary built from the already-computed counts
is substituted (never empty). -/
def synthesizeAnalysis (trends : List Trend) (opportunities : List Opportunity)
    (competitive : CompetitiveResult) (metrics : KeyMetrics)
    (query market_domain : String) (llm : Except Unit String) (ts : Time) :
    AnalysisSynthesis :=
  match llm with
  | .ok text =>
      { executive_summary := text.take 500, full_synthesis := text,
        analysis_timestamp := ts,
        confidence_level := metrics.analysis_confidence }
  | .error _ =>
      { executive_summary := "Analysis completed for " ++ query ++ " in " ++
          market_domain ++ " market with " ++ toString trends.length ++
          " trends and " ++ toString opportunities.length ++
          " opportunities identified.",
        full_synthesis := "Comprehensive market analysis completed successfully.",
        analysis_timestamp := ts, confidence_level := 7/10 }

/-- The dictionary `AnalystAgent.execute` returns. -/
structure AnalystOutput where
  success : Bool
  market_trends : List Trend
  opportunities : List Opportunity
  competitive_landscape : CompetitiveResult
  key_metrics : KeyMetrics
  analysis_synthesis : AnalysisSynthesis
  deriving DecidableEq, Repr

/-- `AnalystAgent.execute`: runs the four sub-analyses (each internally
fault-tolerant, hence total here) and the synthesis, and returns
`success=True` unconditionally. -/
def analystExecute (web news : List ContentItem) (processed : ProcessedData)
    (query market_domain : String)
    (llmTrends : Except Unit (Option (List Trend)))
    (llmOpps : Except Unit (Option (List Opportunity)))
    (llmComp : Except Unit CompetitiveResult)
    (numericalDataPoints : Nat)
    (llmSynth : Except Unit String) (ts : Time) : AnalystOutput :=
  let trends := analyzeMarketTrends web news query market_domain llmTrends ts
  let opportunities := identifyOpportunities web news query market_domain
    llmOpps
  let competitive := analyzeCompetitiveLandscape web news query market_domain
    llmComp
  let metrics := extractKeyMetrics web news processed numericalDataPoints
  { success := true, market_trends := trends, opportunities := opportunities,
    competitive_landscape := competitive, key_metrics := metrics,
    analysis_synthesis := synthesizeAnalysis trends opportunities competitive
      metrics query market_domain llmSynth ts }

/-- C3: when every collected content item is below the minimum-length
threshold (in particular when both content lists are empty), the trend
analysis returns exactly the two canned fallback trends and the
opportunity identification returns exactly the two canned fallback
opportunities — whatever the LLM outcomes would have been, since the LLM
is never consulted — each record carries the fallback-flag `note` field,
and the analyst stage's result still has `success=true`. -/
theorem analyst_fallbacks_on_sparse_content (web news : List ContentItem)
    (processed : ProcessedData) (query market_domain : String)
    (llmTrends : Except Unit (Option (List Trend)))
    (llmOpps : Except Unit (Option (List Opportunity)))
    (llmComp : Except Unit CompetitiveResult) (numericalDataPoints : Nat)
    (llmSynth : Except Unit String) (ts : Time)
    (hSparse : ∀ item ∈ web ++ news,
      (pyStrip (effectiveContent item)).length ≤ 50) :
    (analystExecute web news processed query market_domain llmTrends llmOpps
        llmComp numericalDataPoints llmSynth ts).market_trends =
      getFallbackTrends query market_domain ts ∧
    (analystExecute web news processed query market_domain llmTrends llmOpps
        llmComp numericalDataPoints llmSynth ts).opportunities =
      getFallbackOpportunities query market_domain ∧
    (getFallbackTrends query market_domain ts).length = 2 ∧
    (getFallbackOpportunities query market_domain).length = 2 ∧
    (∀ t ∈ getFallbackTrends query market_domain ts,
      t.note = some fallbackNote) ∧
    (∀ o ∈ getFallbackOpportunities query market_domain,
      o.note = some fallbackNote) ∧
    (analystExecute web news processed query market_domain llmTrends llmOpps
        llmComp numericalDataPoints llmSynth ts).success = true := by
  have hnil : substantialContents web news = [] := by
    refine List.filterMap_eq_nil_iff.mpr (fun item hmem => ?_)
    have hle := hSparse item hmem
    simp only [ite_eq_right_iff]
    intro hcond
    exact absurd hcond.2 (by omega)
  refine ⟨?_, ?_, rfl, rfl, ?_, ?_, rfl⟩
  · simp [analystExecute, analyzeMarketTrends, hnil]
  · simp [analystExecute, identifyOpportunities, hnil]
  · intro t ht
    simp only [getFallbackTrends, List.mem_cons, List.mem_singleton,
      List.not_mem_nil, or_false] at ht
    rcases ht with h | h <;> subst h <;> rfl
  · intro o ho
    simp only [getFallbackOpportunities, List.mem_cons, List.mem_singleton,
      List.not_mem_nil, or_false] at ho
    rcases ho with h | h <;> subst h <;> rfl

/-- C3 witness: with both content lists empty (all external collaborators
returning nothing), the analyst produces exactly the two fallback trends
and two fallback opportunities, flagged, with `success=true`. -/
theorem analyst_fallbacks_on_sparse_content_witness :
    (analystExecute [] []
        { key_themes := [], market_signals := [], data_quality_score := 5,
          content_summary := "", recommended_focus_areas := [] }
        "AI adoption" "Healthcare" (.error ()) (.error ()) (.error ()) 0
        (.error ()) 0).market_trends =
      getFallbackTrends "AI adoption" "Healthcare" 0 ∧
    (analystExecute [] []
        { key_themes := [], market_signals := [], data_quality_score := 5,
          content_summary := "", recommended_focus_areas := [] }
        "AI adoption" "Healthcare" (.error ()) (.error ()) (.error ()) 0
        (.error ()) 0).opportunities =
      getFallbackOpportunities "AI adoption" "Healthcare" ∧
    (getFallbackTrends "AI adoption" "Healthcare" 0).length = 2 ∧
    (getFallbackOpportunities "AI adoption" "Healthcare").length = 2 ∧
    (∀ t ∈ getFallbackTrends "AI adoption" "Healthcare" 0,
      t.note = some fallbackNote) ∧
    (∀ o ∈ getFallbackOpportunities "AI adoption" "Healthcare",
      o.note = some fallbackNote) ∧
    (analystExecute [] []
        { key_themes := [], market_signals := [], data_quality_score := 5,
          content_summary := "", recommended_focus_areas := [] }
        "AI adoption" "Healthcare" (.error ()) (.error ()) (.error ()) 0
        (.error ()) 0).success = true :=
  analyst_fallbacks_on_sparse_content [] []
    { key_themes := [], market_signals := [], data_quality_score := 5,
      content_summary := "", recommended_focus_areas := [] }
    "AI adoption" "Healthcare" (.error ()) (.error ()) (.error ()) 0
    (.error ()) 0 (by simp)

/-- Outcome of the LLM call and subsequent `json.loads` inside
`ReaderAgent._process_collected_data`: the call raises, or returns text the
JSON parser rejects, or returns text parsing to a value (the parsed value
is used as-is, without a shape check). -/
inductive ProcessLLMOutcome where
  | raises
  | returnsUnparsable
  | returnsParsed (p : ProcessedData)
  deriving DecidableEq, Repr

/-- The structure substituted by the OUTER `except` of
`_process_collected_data`, reached when the LLM call itself raises:
quality score 5, empty theme/signal lists. -/
def processErrorDefault : ProcessedData :=
  { key_themes := [], market_signals := [], data_quality_score := 5,
    content_summary := "Data collection completed with some processing errors",
    recommended_focus_areas := [] }

/-- The structure substituted by the INNER `except` of
`_process_collected_data`, reached when the LLM responded but its output
fails `json.loads`: quality score 7, canned non-empty theme/signal lists. -/
def processParseDefault : ProcessedData :=
  { key_themes := ["Data processing", "Market analysis"],
    market_signals := ["Emerging trends identified"],
    data_quality_score := 7,
    content_summary := "Successfully collected and processed market data",
    recommended_focus_areas := ["Competitive analysis", "Market trends"] }

/-- `ReaderAgent._process_collected_data` (the assembled content strings
feed only the prompt, so the content lists do not influence the outcome
beyond the LLM oracle). -/
def processCollectedData (web news trending : List ContentItem)
    (query market_domain : String) (llm : ProcessLLMOutcome) :
    ProcessedData :=
  match llm with
  | .raises => processErrorDefault
  | .returnsUnparsable => processParseDefault
  | .returnsParsed p => p

/-- C4 counterexample: when the LLM call succeeds but its output cannot be
parsed as JSON, the step does NOT return the fixed default structure with
`data_quality_score = 5` and empty theme/signal lists — the inner `except`
substitutes a different fixed structure with `data_quality_score = 7` and
non-empty canned lists. -/
theorem processCollectedData_unparsable_not_score5 :
    (processCollectedData [] [] [] "AI adoption" "Healthcare"
        .returnsUnparsable).data_quality_score = 7 ∧
    (processCollectedData [] [] [] "AI adoption" "Healthcare"
        .returnsUnparsable).key_themes = ["Data processing",
          "Market analysis"] ∧
    ¬ ((processCollectedData [] [] [] "AI adoption" "Healthcare"
        .returnsUnparsable).data_quality_score = 5 ∧
       (processCollectedData [] [] [] "AI adoption" "Healthcare"
        .returnsUnparsable).key_themes = []) := by
  refine ⟨rfl, rfl, ?_⟩
  rintro ⟨h5, -⟩
  simp [processCollectedData, processParseDefault] at h5

/-- C4 amended: `_process_collected_data` never propagates a failure; when
the LLM call raises it returns the fixed default structure with
`data_quality_score = 5` and empty `key_themes`/`market_signals`, and when
the LLM output cannot be parsed as JSON it returns the OTHER fixed default
structure with `data_quality_score = 7` and canned non-empty
theme/signal lists. -/
theorem processCollectedData_failure_defaults (web news trending :
    List ContentItem) (query market_domain : String) :
    processCollectedData web news trending query market_domain .raises =
      processErrorDefault ∧
    processErrorDefault.data_quality_score = 5 ∧
    processErrorDefault.key_themes = [] ∧
    processErrorDefault.market_signals = [] ∧
    processCollectedData web news trending query market_domain
      .returnsUnparsable = processParseDefault :=
  ⟨rfl, rfl, rfl, rfl, rfl⟩

/-- One phase of the action-plan schema of
`StrategistAgent._create_action_plans`. -/
structure PlanPhase where
  title : String
  duration : String
  objectives : List String
  key_activities : List String
  deliverables : List String
  resources_needed : List String
  success_criteria : List String
  deriving DecidableEq, Repr

/-- The per-opportunity action-plan dictionary of the prompt schema. -/
structure ActionPlan where
  opportunity_name : String
  phase_1 : PlanPhase
  phase_2 : PlanPhase
  phase_3 : PlanPhase
  total_timeline : String
  budget_estimate : String
  risk_factors : List String
  contingency_plans : List String
  deriving DecidableEq, Repr

/-- Outcome of the i-th per-opportunity LLM call inside
`_create_action_plans`: the chain raises, or parses to a dict (appended),
or parses to a non-dict value (silently skipped by the `isinstance`
check). -/
inductive PlanOutcome where
  | raises
  | returnsDict (p : ActionPlan)
  | returnsNonDict
  deriving DecidableEq, Repr

/-- The `for opportunity in top_opportunities` loop body of
`_create_action_plans`: iteration `i` performs LLM call `i`; a raised call
escapes the loop to the method-level `except`, which returns `[]`
(discarding `acc`, the plans appended so far). -/
def createActionPlansGo : List Opportunity → Nat → (Nat → PlanOutcome) →
    List ActionPlan → List ActionPlan
  | [], _, _, acc => acc
  | _ :: rest, i, outs, acc =>
      match outs i with
      | .raises => []
      | .returnsDict p => createActionPlansGo rest (i + 1) outs (acc ++ [p])
      | .returnsNonDict => createActionPlansGo rest (i + 1) outs acc

/-- `StrategistAgent._create_action_plans(opportunities, trends, query,
market_domain)`: iterates over the top-3 opportunities, one LLM call each
(outcome oracle `outs`), inside a single try/except that returns `[]` on
any raised call. -/
def createActionPlans (opportunities : List Opportunity)
    (trends : List Trend) (query market_domain : String)
    (outs : Nat → PlanOutcome) : List ActionPlan :=
  createActionPlansGo (opportunities.take 3) 0 outs []

/-- Reference collection of the parsed-dict plans, in call order, skipping
non-dict outcomes — what the loop accumulates when no call raises. -/
def collectDictPlans : List Opportunity → Nat → (Nat → PlanOutcome) →
    List ActionPlan
  | [], _, _ => []
  | _ :: rest, i, outs =>
      match outs i with
      | .returnsDict p => p :: collectDictPlans rest (i + 1) outs
      | _ => collectDictPlans rest (i + 1) outs

/-- Helper: if some call in the iterated range raises, the loop result is
`[]` whatever was already accumulated. -/
theorem createActionPlansGo_raise_aborts (l : List Opportunity) (i : Nat)
    (outs : Nat → PlanOutcome) (acc : List ActionPlan)
    (h : ∃ j, i ≤ j ∧ j < i + l.length ∧ outs j = .raises) :
    createActionPlansGo l i outs acc = [] := by
  induction l generalizing i acc with
  | nil =>
      obtain ⟨j, h1, h2, -⟩ := h
      simp at h2
      omega
  | cons o rest ih =>
      obtain ⟨j, h1, h2, h3⟩ := h
      by_cases hj : j = i
      · subst hj
        simp [createActionPlansGo, h3]
      · cases ho : outs i with
        | raises => simp [createActionPlansGo, ho]
        | returnsDict p =>
            simp only [createActionPlansGo, ho]
            exact ih (i + 1) (acc ++ [p])
              ⟨j, by omega, by simpa [Nat.add_comm, Nat.add_assoc,
                Nat.add_left_comm] using h2, h3⟩
        | returnsNonDict =>
            simp only [createActionPlansGo, ho]
            exact ih (i + 1) acc
              ⟨j, by omega, by simpa [Nat.add_comm, Nat.add_assoc,
                Nat.add_left_comm] using h2, h3⟩

/-- Helper: if no call in the iterated range raises, the loop returns the
accumulator followed by the parsed-dict plans in call order. -/
theorem createActionPlansGo_no_raise (l : List Opportunity) (i : Nat)
    (outs : Nat → PlanOutcome) (acc : List ActionPlan)
    (h : ∀ j, i ≤ j → j < i + l.length → outs j ≠ .raises) :
    createActionPlansGo l i outs acc = acc ++ collectDictPlans l i outs := by
  induction l generalizing i acc with
  | nil => simp [createActionPlansGo, collectDictPlans]
  | cons o rest ih =>
      cases ho : outs i with
      | raises => exact absurd ho (h i le_rfl (by simp))
      | returnsDict p =>
          simp only [createActionPlansGo, collectDictPlans, ho]
          rw [ih (i + 1) (acc ++ [p]) (fun j hj1 hj2 =>
            h j (by omega) (by simp at hj2 ⊢; omega))]
          simp
      | returnsNonDict =>
          simp only [createActionPlansGo, collectDictPlans, ho]
          exact ih (i + 1) acc (fun j hj1 hj2 =>
            h j (by omega) (by simp at hj2 ⊢; omega))

/-- An opportunity record with only its name populated, for concrete
evaluation. -/
def mkSimpleOpportunity (name : String) : Opportunity :=
  { opportunity_name := name, description := "", market_size := "",
    target_segment := "", competitive_advantage := "",
    implementation_difficulty := "Medium", time_to_market := "",
    revenue_potential := "High", risk_level := "Medium",
    key_requirements := [], note := none }

/-- An empty plan phase, for concrete evaluation. -/
def emptyPlanPhase : PlanPhase :=
  { title := "", duration := "", objectives := [], key_activities := [],
    deliverables := [], resources_needed := [], success_criteria := [] }

/-- A plan record with only its opportunity name populated, for concrete
evaluation. -/
def mkSimplePlan (name : String) : ActionPlan :=
  { opportunity_name := name, phase_1 := emptyPlanPhase,
    phase_2 := emptyPlanPhase, phase_3 := emptyPlanPhase,
    total_timeline := "", budget_estimate := "", risk_factors := [],
    contingency_plans := [] }

/-- LLM-call oracle for the C5 counterexample: the first call succeeds with
a parsed plan, the second raises, the third would succeed. -/
def c5Outs : Nat → PlanOutcome := fun i =>
  if i = 0 then .returnsDict (mkSimplePlan "Plan A")
  else if i = 1 then .raises
  else .returnsDict (mkSimplePlan "Plan C")

/-- C5 counterexample: with three opportunities, where the plan LLM call
for opportunity 1 succeeds and the call for opportunity 2 raises, the
sub-task returns `[]` — the failure of one opportunity's plan DOES block
the others, and the successfully produced plan for opportunity 1 is NOT in
the returned list, refuting the partial-results claim (this is not a total
failure, yet the result is the empty list). -/
theorem createActionPlans_one_failure_blocks_others :
    createActionPlans
      [mkSimpleOpportunity "A", mkSimpleOpportunity "B",
       mkSimpleOpportunity "C"] [] "growth" "Retail" c5Outs = [] ∧
    c5Outs 0 = .returnsDict (mkSimplePlan "Plan A") ∧
    c5Outs 2 = .returnsDict (mkSimplePlan "Plan C") ∧
    mkSimplePlan "Plan A" ∉ createActionPlans
      [mkSimpleOpportunity "A", mkSimpleOpportunity "B",
       mkSimpleOpportunity "C"] [] "growth" "Retail" c5Outs := by
  refine ⟨?_, rfl, rfl, ?_⟩
  · rfl
  · intro hmem
    rw [show createActionPlans
      [mkSimpleOpportunity "A", mkSimpleOpportunity "B",
       mkSimpleOpportunity "C"] [] "growth" "Retail" c5Outs = [] from rfl]
      at hmem
    exact List.not_mem_nil _ hmem

/-- C5 amended: `_create_action_plans` caps the work at the top-3
opportunities and never propagates a raised LLM call; but its single
try/except wraps the whole loop, so if the call for ANY of the top-3
opportunities raises, the sub-task returns the empty list, discarding the
plans already produced (no partial results); only when no call raises does
it return exactly the parsed-dict plans in call order (outcomes that parse
to a non-dict are skipped while the others are kept). -/
theorem createActionPlans_raise_yields_empty (opportunities : List Opportunity)
    (trends : List Trend) (query market_domain : String)
    (outs : Nat → PlanOutcome) :
    ((∃ j < (opportunities.take 3).length, outs j = .raises) →
      createActionPlans opportunities trends query market_domain outs = []) ∧
    ((∀ j < (opportunities.take 3).length, outs j ≠ .raises) →
      createActionPlans opportunities trends query market_domain outs =
        collectDictPlans (opportunities.take 3) 0 outs) := by
  constructor
  · rintro ⟨j, hj, hr⟩
    exact createActionPlansGo_raise_aborts _ 0 outs []
      ⟨j, Nat.zero_le j, by simpa using hj, hr⟩
  · intro h
    rw [createActionPlans,
      createActionPlansGo_no_raise _ 0 outs []
        (fun j _ hj2 => h j (by simpa using hj2))]
    simp

/-- C5 amended-claim witness: with three opportunities and no raising
call, the sub-task returns exactly the parsed plans in call order. -/
theorem createActionPlans_raise_yields_empty_witness :
    createActionPlans
      [mkSimpleOpportunity "A", mkSimpleOpportunity "B",
       mkSimpleOpportunity "C"] [] "growth" "Retail"
      (fun _ => .returnsDict (mkSimplePlan "Plan A")) =
    collectDictPlans
      [mkSimpleOpportunity "A", mkSimpleOpportunity "B",
       mkSimpleOpportunity "C"] 0
      (fun _ => .returnsDict (mkSimplePlan "Plan A")) :=
  (createActionPlans_raise_yields_empty
    [mkSimpleOpportunity "A", mkSimpleOpportunity "B",
     mkSimpleOpportunity "C"] [] "growth" "Retail"
    (fun _ => .returnsDict (mkSimplePlan "Plan A"))).2
    (fun j hj => by simp)

/-- Python's `str.split()` with no argument: split on whitespace runs,
dropping empty segments. -/
def pySplit (s : String) : List String :=
  (s.split (fun c => c.isWhitespace)).filter (fun w => w ≠ "")

/-- The count of trends aligned with a recommendation
(`_calculate_recommendation_confidence`): a trend counts when any of the
first 5 whitespace-separated words of its lowercased description occurs as
a substring of the recommendation's lowercased description. -/
def trendAlignmentCount (recDescription : String) (trends : List Trend) :
    Nat :=
  trends.countP (fun t =>
    ((pySplit t.description.toLower).take 5).any
      (fun kw => decide (kw.toList <:+: recDescription.toLower.toList)))

/-- The count of aligned high-revenue-potential opportunities: an
opportunity counts when its `revenue_potential` is `"High"` and any of the
first 5 words of its lowercased description occurs in the recommendation's
lowercased description. -/
def oppAlignmentCount (recDescription : String)
    (opportunities : List Opportunity) : Nat :=
  opportunities.countP (fun o =>
    o.revenue_potential == "High" &&
    ((pySplit o.description.toLower).take 5).any
      (fun kw => decide (kw.toList <:+: recDescription.toLower.toList)))

/-- The arithmetic of `_calculate_recommendation_confidence`: base
confidence `0.7`, boost `min(0.3, (trend_alignment + opportunity_alignment)
* 0.05)`, capped result `min(1.0, base + boost)`. -/
def confidenceFromCounts (trendAlignment oppAlignment : Nat) : ℚ :=
  min 1 (7/10 + min (3/10)
    (((trendAlignment : ℚ) + (oppAlignment : ℚ)) * (1/20)))

/-- `StrategistAgent._calculate_recommendation_confidence(recommendation,
trends, opportunities)`: the method reads only the recommendation's
`description` (with default `""`), so it is embedded as a function of that
string.  (The method's blanket `except: return 0.7` is unreachable in this
embedding since the computation is total.) -/
def calcRecommendationConfidence (recDescription : String)
    (trends : List Trend) (opportunities : List Opportunity) : ℚ :=
  confidenceFromCounts (trendAlignmentCount recDescription trends)
    (oppAlignmentCount recDescription opportunities)

/-- C6: the recommendation confidence score is always in `[0, 1]`; it is
monotonically non-decreasing in the number of aligned trends plus aligned
high-revenue-potential opportunities; and it saturates — once the combined
alignment count reaches 6, the score is exactly 1 and further alignment
does not increase it. -/
theorem recommendation_confidence_bounded_monotone_saturating :
    (∀ (recDescription : String) (trends : List Trend)
      (opportunities : List Opportunity),
      0 ≤ calcRecommendationConfidence recDescription trends opportunities ∧
      calcRecommendationConfidence recDescription trends opportunities ≤ 1) ∧
    (∀ t o t2 o2 : Nat, t + o ≤ t2 + o2 →
      confidenceFromCounts t o ≤ confidenceFromCounts t2 o2) ∧
    (∀ t o : Nat, 6 ≤ t + o → confidenceFromCounts t o = 1) := by
  have hrange : ∀ t o : Nat, 0 ≤ confidenceFromCounts t o ∧
      confidenceFromCounts t o ≤ 1 := by
    intro t o
    unfold confidenceFromCounts
    constructor
    · refine le_min (by norm_num) ?_
      have h1 : (0 : ℚ) ≤ ((t : ℚ) + (o : ℚ)) * (1/20) := by positivity
      have h2 : (0 : ℚ) ≤ min (3/10) (((t : ℚ) + (o : ℚ)) * (1/20)) :=
        le_min (by norm_num) h1
      linarith
    · exact min_le_left _ _
  refine ⟨fun recDescription trends opportunities => hrange _ _, ?_, ?_⟩
  · intro t o t2 o2 h
    unfold confidenceFromCounts
    have hc : ((t : ℚ) + (o : ℚ)) ≤ ((t2 : ℚ) + (o2 : ℚ)) := by
      exact_mod_cast h
    gcongr
  · intro t o h
    unfold confidenceFromCounts
    have hc : (3/10 : ℚ) ≤ ((t : ℚ) + (o : ℚ)) * (1/20) := by
      have : (6 : ℚ) ≤ (t : ℚ) + (o : ℚ) := by exact_mod_cast h
      linarith
    rw [min_eq_left hc]
    norm_num

/-- C6 witness: concrete evaluations of the confidence arithmetic — the
score is non-decreasing from overlap 1 to overlap 3, and saturated at
overlap 7. -/
theorem recommendation_confidence_witness :
    (0 ≤ calcRecommendationConfidence "expand AI tooling" [] [] ∧
      calcRecommendationConfidence "expand AI tooling" [] [] ≤ 1) ∧
    confidenceFromCounts 1 0 ≤ confidenceFromCounts 2 1 ∧
    confidenceFromCounts 4 3 = 1 :=
  ⟨recommendation_confidence_bounded_monotone_saturating.1
      "expand AI tooling" [] [],
   recommendation_confidence_bounded_monotone_saturating.2.1 1 0 2 1
     (by norm_num),
   recommendation_confidence_bounded_monotone_saturating.2.2 4 3
     (by norm_num)⟩

/-- The `export_files` dictionary built by
`FormatterAgent._create_export_files`: format name mapped to the exported
file path, one optional entry per fixed format key. -/
structure ExportFiles where
  markdown : Option String
  pdf : Option String
  docx : Option String
  json : Option String
  deriving DecidableEq, Repr

/-- The markdown file name
`f"{market_domain.lower().replace(' ', '_')}_report.md"`. -/
def mdFileName (market_domain : String) : String :=
  (market_domain.toLower.replace " " "_") ++ "_report.md"

/-- `FormatterAgent._create_export_files`.  Outcome parameters:
`setupAndMd` covers the `ReportExporter` construction and the markdown
file write (the first statements of the outer `try`), `pdfExport` and
`docxExport` are the two best-effort exports, each wrapped in its own
inner try/except that logs and omits the entry on failure, and `jsonWrite`
is the dashboard-data JSON dump (the dashboard-data value itself only
becomes file contents, so it is not a parameter).  A failure of the outer
statements (markdown write or JSON dump) reaches the method-level
`except`, which returns the empty dictionary. -/
def createExportFiles (report_content : String) (chart_files : List String)
    (report_dir query market_domain : String)
    (setupAndMd : Except Unit Unit) (pdfExport docxExport : Except Unit String)
    (jsonWrite : Except Unit Unit) : ExportFiles :=
  match setupAndMd with
  | .error _ => { markdown := none, pdf := none, docx := none, json := none }
  | .ok _ =>
      match jsonWrite with
      | .error _ =>
          { markdown := none, pdf := none, docx := none, json := none }
      | .ok _ =>
          { markdown := some (report_dir ++ "/" ++ mdFileName market_domain),
            pdf := pdfExport.toOption, docx := docxExport.toOption,
            json := some (report_dir ++ "/dashboard_data.json") }

/-- The fields of the dictionary `FormatterAgent.execute` returns that the
claims read (the dashboard-data structure is carried opaquely by the
source and not inspected by any claim). -/
structure FormatterOutput where
  success : Bool
  report_dir : String
  chart_files : List String
  report_content : String
  export_files : ExportFiles
  deriving DecidableEq, Repr

/-- `FormatterAgent.execute`, from the point where its three gathered
sub-tasks (chart generation, report-content templating, dashboard-data
assembly — each internally fault-tolerant, hence total) have produced
their values: it runs `_create_export_files` and returns `success=True`
unconditionally. -/
def formatterExecute (report_dir : String) (chart_files : List String)
    (report_content : String) (query market_domain : String)
    (setupAndMd : Except Unit Unit) (pdfExport docxExport : Except Unit String)
    (jsonWrite : Except Unit Unit) : FormatterOutput :=
  { success := true, report_dir := report_dir, chart_files := chart_files,
    report_content := report_content,
    export_files := createExportFiles report_content chart_files report_dir
      query market_domain setupAndMd pdfExport docxExport jsonWrite }

/-- C9: in every formatter run whose markdown write and JSON dump succeed,
a raised PDF and/or DOCX export is caught by its own inner try/except
(logged) and merely omitted from `export_files`, which still contains the
markdown entry; a format that succeeds keeps its entry; and the failure is
never fatal to the formatter stage — its result still has
`success=true`. -/
theorem formatter_export_failures_nonfatal (report_content : String)
    (chart_files : List String) (report_dir query market_domain : String)
    (setupAndMd : Except Unit Unit)
    (pdfExport docxExport : Except Unit String) (jsonWrite : Except Unit Unit)
    (hSetup : setupAndMd = .ok ()) (hJson : jsonWrite = .ok ()) :
    (createExportFiles report_content chart_files report_dir query
        market_domain setupAndMd pdfExport docxExport jsonWrite).markdown =
      some (report_dir ++ "/" ++ mdFileName market_domain) ∧
    (∀ e, pdfExport = .error e →
      (createExportFiles report_content chart_files report_dir query
        market_domain setupAndMd pdfExport docxExport jsonWrite).pdf = none) ∧
    (∀ p, pdfExport = .ok p →
      (createExportFiles report_content chart_files report_dir query
        market_domain setupAndMd pdfExport docxExport jsonWrite).pdf =
          some p) ∧
    (∀ e, docxExport = .error e →
      (createExportFiles report_content chart_files report_dir query
        market_domain setupAndMd pdfExport docxExport jsonWrite).docx =
          none) ∧
    (∀ p, docxExport = .ok p →
      (createExportFiles report_content chart_files report_dir query
        market_domain setupAndMd pdfExport docxExport jsonWrite).docx =
          some p) ∧
    (formatterExecute report_dir chart_files report_content query
        market_domain setupAndMd pdfExport docxExport
        jsonWrite).success = true := by
  subst hSetup
  subst hJson
  refine ⟨rfl, ?_, ?_, ?_, ?_, rfl⟩
  · intro e he
    subst he
    rfl
  · intro p hp
    subst hp
    rfl
  · intro e he
    subst he
    rfl
  · intro p hp
    subst hp
    rfl

/-- C9 witness: a concrete run where the PDF export raises and the DOCX
export succeeds: the markdown entry is present, the pdf entry is omitted,
the docx entry is kept, and the stage still reports success. -/
theorem formatter_export_failures_nonfatal_witness :
    (createExportFiles "# Report" ["trend_chart.png"] "reports/report_1"
        "AI adoption" "Healthcare" (.ok ()) (.error ())
        (.ok "reports/report_1/report.docx") (.ok ())).markdown =
      some ("reports/report_1" ++ "/" ++ mdFileName "Healthcare") ∧
    (∀ e, (.error () : Except Unit String) = .error e →
      (createExportFiles "# Report" ["trend_chart.png"] "reports/report_1"
        "AI adoption" "Healthcare" (.ok ()) (.error ())
        (.ok "reports/report_1/report.docx") (.ok ())).pdf = none) ∧
    (∀ p, (.error () : Except Unit String) = .ok p →
      (createExportFiles "# Report" ["trend_chart.png"] "reports/report_1"
        "AI adoption" "Healthcare" (.ok ()) (.error ())
        (.ok "reports/report_1/report.docx") (.ok ())).pdf = some p) ∧
    (∀ e, (.ok "reports/report_1/report.docx" : Except Unit String) =
        .error e →
      (createExportFiles "# Report" ["trend_chart.png"] "reports/report_1"
        "AI adoption" "Healthcare" (.ok ()) (.error ())
        (.ok "reports/report_1/report.docx") (.ok ())).docx = none) ∧
    (∀ p, (.ok "reports/report_1/report.docx" : Except Unit String) =
        .ok p →
      (createExportFiles "# Report" ["trend_chart.png"] "reports/report_1"
        "AI adoption" "Healthcare" (.ok ()) (.error ())
        (.ok "reports/report_1/report.docx") (.ok ())).docx = some p) ∧
    (formatterExecute "reports/report_1" ["trend_chart.png"] "# Report"
        "AI adoption" "Healthcare" (.ok ()) (.error ())
        (.ok "reports/report_1/report.docx") (.ok ())).success = true :=
  formatter_export_failures_nonfatal "# Report" ["trend_chart.png"]
    "reports/report_1" "AI adoption" "Healthcare" (.ok ()) (.error ())
    (.ok "reports/report_1/report.docx") (.ok ()) rfl rfl
